import Mathlib

/-! The OCR2 contract cache of chainlink-starknet

A shallow embedding of `pkg/starknet/ocr2/contract_cache.go`.

* Every method with receiver `*contractCache` is a function from the cache
  state to the state it leaves behind together with what it returns.
* A Go `error` is `Option GoError` (`none` is `nil`); a call that can panic
  returns `Except GoPanic _`.
* `ccLock` brackets each method body between its first statement and its
  return, so a method is one atomic transition on the cache state; the mutex is
  free between transitions and holds no data.
* `poll` runs as a goroutine next to the callers of `Close`; it is embedded as
  a labelled step function on a `CacheSystem` (cache, program point of the
  loop, state of the tick channel).
-/

/-! ## Types of the libraries the file uses -/

/-- Go `byte`. -/
abbrev Byte := Fin 256

/-- Go `error`: a non-nil error value, identified with its message. -/
abbrev GoError := String

/-- Run-time panics of the channel operations. -/
inductive GoPanic where
  | closeOfClosedChannel
  | closeOfNilChannel
deriving DecidableEq, Repr

/-- A `chan struct{}` nobody sends on: the nil channel, a channel made with
`make` and not yet closed, or a closed channel. -/
inductive Chan where
  | nilChan
  | live
  | closed
deriving DecidableEq, Repr

/-- Go `make(chan struct{})`. -/
def makeChan : Chan := Chan.live

/-- Go built-in `close(ch)`: panics on a nil or an already closed channel. -/
def closeChan : Chan → Except GoPanic Chan
  | Chan.nilChan => Except.error GoPanic.closeOfNilChannel
  | Chan.live => Except.ok Chan.closed
  | Chan.closed => Except.error GoPanic.closeOfClosedChannel

/-- Whether a receive `<-ch` can proceed: nobody sends on these channels, so only
a closed channel yields a value. -/
def Chan.recvReady (ch : Chan) : Bool :=
  match ch with
  | Chan.closed => true
  | _ => false

/-- A `context.Context`, as far as it can be observed: whether it is cancelled. -/
structure Context where
  cancelled : Bool
deriving DecidableEq, Repr

/-- The context of `utils.ContextFromChan(ch)`: cancelled once `ch` is closed. -/
def ContextFromChan (ch : Chan) : Context :=
  ⟨ch.recvReady⟩

/-- Severity of a log line. -/
inductive LogLevel where
  | warn
  | error
deriving DecidableEq, Repr

/-- A `logger.Logger`, observed through the lines written to it. -/
structure Logger where
  lines : List (LogLevel × String)
deriving DecidableEq, Repr

/-- Go `lggr.Warnf(format, err)` with the format already applied. -/
def Logger.Warnf (l : Logger) (msg : String) : Logger :=
  ⟨l.lines ++ [(LogLevel.warn, msg)]⟩

/-- Go `lggr.Errorf(format, err)` with the format already applied. -/
def Logger.Errorf (l : Logger) (msg : String) : Logger :=
  ⟨l.lines ++ [(LogLevel.error, msg)]⟩

/-- A `sync.RWMutex`. It is free whenever no method body is running. -/
structure RWMutex where
deriving DecidableEq, Repr

namespace types

/-- The libocr type `types.ConfigDigest`, a `[32]byte`. -/
structure ConfigDigest where
  bytes : List Byte
  size : bytes.length = 32
deriving DecidableEq, Repr

/-- The zero value of `[32]byte`. -/
def ConfigDigest.zero : ConfigDigest :=
  ⟨List.replicate 32 0, by simp⟩

/-- The libocr type `types.ContractConfig`. A nil slice is the empty list. -/
structure ContractConfig where
  ConfigDigest : ConfigDigest
  ConfigCount : Nat
  Signers : List (List Byte)
  Transmitters : List String
  F : Nat
  OnchainConfig : List Byte
  OffchainConfigVersion : Nat
  OffchainConfig : List Byte
deriving DecidableEq, Repr

/-- The zero value `types.ContractConfig{}`. -/
def ContractConfig.zero : ContractConfig :=
  { ConfigDigest := ConfigDigest.zero
    ConfigCount := 0
    Signers := []
    Transmitters := []
    F := 0
    OnchainConfig := []
    OffchainConfigVersion := 0
    OffchainConfig := [] }

end types

namespace ocr2

/-! ## Declarations of the package that the file relies on -/

/-- Modelled from the spec: the struct `ContractConfig` of package `ocr2` is
declared in another file of the package. Section 3 of the spec (ConfigSnapshot)
and the field selections in `LatestConfigDetails` and `LatestConfig` give its two
fields: the configuration payload and the block at which it became effective. -/
structure ContractConfig where
  config : types.ContractConfig
  configBlock : Nat
deriving DecidableEq, Repr

/-- The zero value `ContractConfig{}`. -/
def ContractConfig.zero : ContractConfig :=
  { config := types.ContractConfig.zero, configBlock := 0 }

/-- Modelled from the spec: the type `contractReader` is declared in another
file of the package. Section 6 of the spec gives it a single capability, a
fetch of the current configuration that either yields a configuration or fails
explicitly. The reader is represented by the answers it is going to give, in
order: `some X` is a successful fetch reporting `X`, `none` a failed fetch, and a
reader with no answers left fails. -/
structure contractReader where
  answers : List (Option ContractConfig)
deriving DecidableEq, Repr

/-- Modelled from the spec: what the next fetch of the reader reports. -/
def contractReader.nextFetch (r : contractReader) : Option ContractConfig :=
  match r.answers with
  | [] => none
  | a :: _ => a

/-! ## The cache -/

/-- The struct `contractCache`. -/
structure contractCache where
  contractConfig : ContractConfig
  ccLock : RWMutex
  ccTime : Nat
  stop : Chan
  done : Chan
  reader : contractReader
  lggr : Logger
deriving DecidableEq, Repr

/-- Go `NewContractCache`: the fields not listed in the composite literal take
their zero value. -/
def NewContractCache (reader : contractReader) (lggr : Logger) : contractCache :=
  { contractConfig := ContractConfig.zero
    ccLock := {}
    ccTime := 0
    stop := makeChan
    done := makeChan
    reader := reader
    lggr := lggr }

/-- Go `(*contractCache).updateConfig`: the new configuration is the zero value
(reading it from the reader is left as a todo in the source), it is stored under
the write lock, and the only return is `nil`. -/
def updateConfig (c : contractCache) (_ctx : Context) : contractCache × Option GoError :=
  let newConfig : ContractConfig := ContractConfig.zero
  -- c.ccLock.Lock(); defer c.ccLock.Unlock()
  let c1 := { c with contractConfig := newConfig }
  (c1, none)

/-- The goroutines this file launches with a `go` statement. -/
inductive Goroutine where
  | poll
deriving DecidableEq, Repr

/-- What a call of `Start` leaves behind. -/
structure StartResult where
  cache : contractCache
  spawned : List Goroutine
  err : Option GoError
deriving DecidableEq, Repr

/-- Go `(*contractCache).Start`. -/
def Start (c : contractCache) : StartResult :=
  let ctx := ContextFromChan c.stop
  -- defer cancel()
  let r := updateConfig c ctx
  let c1 :=
    match r.2 with
    | some err => { r.1 with lggr := r.1.lggr.Warnf ("failed to populate initial config: " ++ err) }
    | none => r.1
  { cache := c1, spawned := [Goroutine.poll], err := none }

/-- The body of Go `(*contractCache).Start` with the refresh it calls taken as a
parameter, so that both outcomes of the `if err != nil` can be followed; `Start`
is `StartWith updateConfig`. -/
def StartWith (refresh : contractCache → Context → contractCache × Option GoError)
    (c : contractCache) : StartResult :=
  let ctx := ContextFromChan c.stop
  -- defer cancel()
  let r := refresh c ctx
  let c1 :=
    match r.2 with
    | some err => { r.1 with lggr := r.1.lggr.Warnf ("failed to populate initial config: " ++ err) }
    | none => r.1
  { cache := c1, spawned := [Goroutine.poll], err := none }

/-- Go `(*contractCache).Close`: `close(c.stop)` and then `return nil`. When
`close` panics the method returns nothing and the cache is as it was. -/
def Close (c : contractCache) : contractCache × Except GoPanic (Option GoError) :=
  match closeChan c.stop with
  | Except.error p => (c, Except.error p)
  | Except.ok ch => ({ c with stop := ch }, Except.ok none)

/-- Go `(*contractCache).Notify`: the nil channel. -/
def Notify (c : contractCache) : contractCache × Chan :=
  (c, Chan.nilChan)

/-- Go `(*contractCache).LatestConfigDetails`. The named result `err` is never
assigned and so is `nil`. -/
def LatestConfigDetails (c : contractCache) (_ctx : Context) :
    contractCache × (Nat × types.ConfigDigest × Option GoError) :=
  -- c.ccLock.RLock(); defer c.ccLock.RUnlock()
  let changedInBlock := c.contractConfig.configBlock
  let configDigest := c.contractConfig.config.ConfigDigest
  (c, (changedInBlock, configDigest, none))

/-- Go `(*contractCache).LatestConfig`. The named result `err` is never assigned
and so is `nil`. -/
def LatestConfig (c : contractCache) (_ctx : Context) (_changedInBlock : Nat) :
    contractCache × (types.ContractConfig × Option GoError) :=
  -- c.ccLock.RLock(); defer c.ccLock.RUnlock()
  let config := c.contractConfig.config
  (c, (config, none))

/-- Go `(*contractCache).LatestBlockHeight`. -/
def LatestBlockHeight (c : contractCache) (_ctx : Context) :
    contractCache × (Nat × Option GoError) :=
  (c, (0, none))

/-! ## The polling goroutine -/

/-- The channel returned by `time.After`: nothing can be received from it until
the runtime fires the timer, after which one value is ready. -/
inductive Timer where
  | pending
  | ready
deriving DecidableEq, Repr

/-- Program point of the goroutine that runs `poll`. -/
inductive PollPC where
  | notStarted
  | atSelect (tick : Timer)
  | returned
deriving DecidableEq, Repr

/-- The two cases of the `select` in `poll`. -/
inductive Branch where
  | stop
  | tick
deriving DecidableEq, Repr

/-- Entry of Go `(*contractCache).poll`: `defer close(c.done)` is registered and
`tick := time.After(0)`; the goroutine then stands at the `select`. -/
def pollEntry : PollPC :=
  PollPC.atSelect Timer.pending

/-- One pass of the loop of Go `(*contractCache).poll` through case `b` of its
`select`: `none` when that case cannot proceed. A `select` with several cases
that can proceed takes any one of them. The result is the cache, the next
program point, and the panic of the deferred `close(c.done)` if it panics. -/
def pollSelect (c : contractCache) (tick : Timer) (b : Branch) :
    Option (contractCache × PollPC × Option GoPanic) :=
  match b with
  | Branch.stop =>
    if c.stop.recvReady then
      -- return, which runs the deferred close(c.done)
      match closeChan c.done with
      | Except.ok ch => some ({ c with done := ch }, PollPC.returned, none)
      | Except.error p => some (c, PollPC.returned, some p)
    else none
  | Branch.tick =>
    if tick = Timer.ready then
      let ctx := ContextFromChan c.stop
      let r := updateConfig c ctx
      let c1 :=
        match r.2 with
        | some err => { r.1 with lggr := r.1.lggr.Errorf ("Failed to update config: " ++ err) }
        | none => r.1
      -- cancel(); tick = time.After(utils.WithJitter(0))
      some (c1, PollPC.atSelect Timer.pending, none)
    else none

/-- A cache together with the goroutine that polls it. -/
structure CacheSystem where
  cache : contractCache
  pc : PollPC
  crashed : Option GoPanic
deriving DecidableEq, Repr

/-- What can happen next: the owner calls `Start` or `Close`, the runtime fires
the timer behind the tick channel, or the loop passes through one case of its
`select`. -/
inductive Action where
  | start
  | close
  | fire
  | select (b : Branch)
deriving DecidableEq, Repr

/-- The step function of the system: the state after action `a`, or `none` when
`a` cannot happen in `s`. `Start` is called at most once; a panic ends the
program. -/
def step (s : CacheSystem) (a : Action) : Option CacheSystem :=
  match s.crashed with
  | some _ => none
  | none =>
    match a with
    | Action.start =>
      match s.pc with
      | PollPC.notStarted =>
        let r := Start s.cache
        some { cache := r.cache
               pc := if Goroutine.poll ∈ r.spawned then pollEntry else PollPC.notStarted
               crashed := none }
      | _ => none
    | Action.close =>
      let r := Close s.cache
      match r.2 with
      | Except.ok _ => some { s with cache := r.1 }
      | Except.error p => some { s with cache := r.1, crashed := some p }
    | Action.fire =>
      match s.pc with
      | PollPC.atSelect Timer.pending => some { s with pc := PollPC.atSelect Timer.ready }
      | _ => none
    | Action.select b =>
      match s.pc with
      | PollPC.atSelect t =>
        match pollSelect s.cache t b with
        | some (c, pc, p) => some { cache := c, pc := pc, crashed := p }
        | none => none
      | _ => none

/-- Runs a sequence of actions; `none` when one of them cannot happen. -/
def run (s : CacheSystem) : List Action → Option CacheSystem
  | [] => some s
  | a :: rest =>
    match step s a with
    | some s1 => run s1 rest
    | none => none

/-- The system around a freshly constructed cache. -/
def CacheSystem.initial (reader : contractReader) (lggr : Logger) : CacheSystem :=
  { cache := NewContractCache reader lggr, pc := PollPC.notStarted, crashed := none }

/-! ## Concrete data of the scenarios -/

/-- A digest all of whose bytes are `b`. -/
def digestOf (b : Byte) : types.ConfigDigest :=
  ⟨List.replicate 32 b, by simp⟩

/-- The configuration with digest `d` that took effect at block `blk`. -/
def snapshotOf (blk : Nat) (d : types.ConfigDigest) : ContractConfig :=
  { config := { types.ContractConfig.zero with ConfigDigest := d }, configBlock := blk }

/-- The reader stub of the scenario: block 10 with digest D1, then block 20 with
digest D2, then failures. -/
def scenarioReader : contractReader :=
  ⟨[some (snapshotOf 10 (digestOf 1)), some (snapshotOf 20 (digestOf 2))]⟩

/-- The system after `Start`, the timer firing and `Close`, in this order: the
stop channel is closed and the tick channel has a value ready. -/
def closedWhileReady : CacheSystem :=
  { cache := { NewContractCache scenarioReader ⟨[]⟩ with stop := Chan.closed }
    pc := PollPC.atSelect Timer.ready
    crashed := none }

/-- A context that is not cancelled. -/
def background : Context :=
  ⟨false⟩

end ocr2

namespace ocr2

/-! ## Facts shared by the results below -/

/-- The only return of `updateConfig` is `nil`, and what it stores is the zero
value: on no cache state and with no context does a refresh return an error. -/
theorem updateConfig_returns_nil (c : contractCache) (ctx : Context) :
    updateConfig c ctx = ({ c with contractConfig := ContractConfig.zero }, none) := rfl

/-- Every byte of the zero digest is zero. -/
theorem zero_digest_bytes : ∀ b ∈ types.ConfigDigest.zero.bytes, b = 0 := by
  intro b hb
  exact List.eq_of_mem_replicate hb

/-! ## C1: what a refresh stores -/

/-- C1 (counterexample): with the reader stub of the scenario, whose next fetch
reports block 10 with digest D1, a refresh returns without error and
`LatestConfigDetails` then returns block 0 with the zero digest, not
`(10, D1, nil)`; after a second refresh it does not return `(20, D2, nil)`
either, and the refresh run by `Start` does not store block 10 either. -/
theorem updateConfig_scenario_counterexample :
    (NewContractCache scenarioReader ⟨[]⟩).reader.nextFetch = some (snapshotOf 10 (digestOf 1))
    ∧ (updateConfig (NewContractCache scenarioReader ⟨[]⟩) background).2 = none
    ∧ (LatestConfigDetails (updateConfig (NewContractCache scenarioReader ⟨[]⟩) background).1
          background).2
        ≠ ((snapshotOf 10 (digestOf 1)).configBlock,
            (snapshotOf 10 (digestOf 1)).config.ConfigDigest, none)
    ∧ (LatestConfigDetails
          (updateConfig (updateConfig (NewContractCache scenarioReader ⟨[]⟩) background).1
            background).1 background).2
        ≠ (20, digestOf 2, none)
    ∧ (LatestConfigDetails (Start (NewContractCache scenarioReader ⟨[]⟩)).cache background).2
        ≠ (10, digestOf 1, none) := by
  decide

/-- C1 (amended): `updateConfig` does not consult the reader. For every cache
state, every context and every configuration `X` (in particular the one the
reader would report), `updateConfig` returns `nil`, `LatestConfigDetails` then
returns block 0, the all-zero digest and a nil error, and this is
`(X.configBlock, X.config.ConfigDigest, nil)` exactly when `X.configBlock` is 0
and the digest of `X` is the zero digest. -/
theorem updateConfig_then_LatestConfigDetails (c : contractCache) (ctx ctx1 : Context)
    (X : ContractConfig) :
    (updateConfig c ctx).2 = none
    ∧ (LatestConfigDetails (updateConfig c ctx).1 ctx1).2 = (0, types.ConfigDigest.zero, none)
    ∧ ((LatestConfigDetails (updateConfig c ctx).1 ctx1).2
          = (X.configBlock, X.config.ConfigDigest, none)
        ↔ X.configBlock = 0 ∧ X.config.ConfigDigest = types.ConfigDigest.zero) := by
  refine ⟨rfl, rfl, ?_⟩
  constructor
  · intro h
    have h1 : (0, types.ConfigDigest.zero, (none : Option GoError))
        = (X.configBlock, X.config.ConfigDigest, none) := h
    simp only [Prod.mk.injEq] at h1
    exact ⟨h1.1.symm, h1.2.1.symm⟩
  · rintro ⟨h1, h2⟩
    show (0, types.ConfigDigest.zero, (none : Option GoError))
        = (X.configBlock, X.config.ConfigDigest, none)
    rw [h1, h2]

/-! ## C2: the cache before any refresh -/

/-- C2: for every reader and logger, on the cache returned by `NewContractCache`
`LatestConfigDetails` returns block 0, the all-zero digest and a nil error. -/
theorem NewContractCache_LatestConfigDetails (reader : contractReader) (lggr : Logger)
    (ctx : Context) :
    (LatestConfigDetails (NewContractCache reader lggr) ctx).2
        = (0, types.ConfigDigest.zero, none)
    ∧ ∀ b ∈ (LatestConfigDetails (NewContractCache reader lggr) ctx).2.2.1.bytes, b = 0 :=
  ⟨rfl, zero_digest_bytes⟩

/-! ## C4: closing twice -/

/-- C4 (counterexample): on a freshly constructed cache the first `Close`
returns `nil` and the second `Close` panics with "close of closed channel"
instead of returning `nil`. -/
theorem Close_twice_counterexample :
    (Close (NewContractCache scenarioReader ⟨[]⟩)).2 = Except.ok none
    ∧ (Close (Close (NewContractCache scenarioReader ⟨[]⟩)).1).2
        = Except.error GoPanic.closeOfClosedChannel
    ∧ (Close (Close (NewContractCache scenarioReader ⟨[]⟩)).1).2 ≠ Except.ok none := by
  refine ⟨rfl, rfl, ?_⟩
  intro h
  cases h

/-- C4 (amended): on every cache whose stop channel is open, as `NewContractCache`
creates it, the first `Close` returns `nil` and closes the stop channel; `Close`
has no one-shot guard, so the second call in a row panics with "close of closed
channel" and returns nothing, and it leaves the cache, the closed stop channel
included, as the first call put it. -/
theorem Close_twice (c : contractCache) (h : c.stop = Chan.live) :
    (Close c).2 = Except.ok none
    ∧ (Close c).1 = { c with stop := Chan.closed }
    ∧ (Close (Close c).1).2 = Except.error GoPanic.closeOfClosedChannel
    ∧ (Close (Close c).1).1 = (Close c).1 := by
  have h1 : Close c = ({ c with stop := Chan.closed }, Except.ok none) := by
    simp [Close, closeChan, h]
  have h2 : Close { c with stop := Chan.closed }
      = ({ c with stop := Chan.closed }, Except.error GoPanic.closeOfClosedChannel) := by
    simp [Close, closeChan]
  rw [h1]
  exact ⟨rfl, rfl, by rw [h2], by rw [h2]⟩

/-- C4 (amended), applied to the cache that `NewContractCache` returns. -/
theorem Close_twice_witness :
    (NewContractCache scenarioReader ⟨[]⟩).stop = Chan.live
    ∧ (Close (NewContractCache scenarioReader ⟨[]⟩)).2 = Except.ok none
    ∧ (Close (NewContractCache scenarioReader ⟨[]⟩)).1
        = { NewContractCache scenarioReader ⟨[]⟩ with stop := Chan.closed }
    ∧ (Close (Close (NewContractCache scenarioReader ⟨[]⟩)).1).2
        = Except.error GoPanic.closeOfClosedChannel
    ∧ (Close (Close (NewContractCache scenarioReader ⟨[]⟩)).1).1
        = (Close (NewContractCache scenarioReader ⟨[]⟩)).1 :=
  ⟨rfl, Close_twice (NewContractCache scenarioReader ⟨[]⟩) rfl⟩

/-! ## C5: the loop after `Close` -/

/-- C5 (counterexample): `Start`, then the timer fires, then `Close` closes the
stop channel. In the state reached, both cases of the `select` can proceed, and
the loop can take the tick case: it calls `updateConfig`, which writes the
snapshot, and goes round the loop again. -/
theorem poll_tick_after_Close_counterexample :
    run (CacheSystem.initial scenarioReader ⟨[]⟩) [Action.start, Action.fire, Action.close]
        = some closedWhileReady
    ∧ closedWhileReady.cache.stop = Chan.closed
    ∧ step closedWhileReady (Action.select Branch.tick)
        = some { cache := (updateConfig closedWhileReady.cache (ContextFromChan Chan.closed)).1
                 pc := PollPC.atSelect Timer.pending
                 crashed := none }
    ∧ step closedWhileReady (Action.select Branch.tick) ≠ none
    ∧ step closedWhileReady (Action.select Branch.stop) ≠ none := by
  decide

/-- C5 (amended): in every state in which the stop channel is closed and the loop
stands at its `select`, the stop case can proceed, and taking it ends the loop
without a call of `updateConfig`: the snapshot is as before and the loop takes no
further case. The tick case is not excluded: it can proceed exactly when a
value is ready on the tick channel, and then `updateConfig` runs and writes the
snapshot although the stop channel is closed. -/
theorem poll_select_after_Close (s : CacheSystem) (t : Timer)
    (hstop : s.cache.stop = Chan.closed) (hpc : s.pc = PollPC.atSelect t)
    (hrun : s.crashed = none) :
    (∃ s1, step s (Action.select Branch.stop) = some s1
        ∧ s1.pc = PollPC.returned
        ∧ s1.cache.contractConfig = s.cache.contractConfig
        ∧ ∀ b, step s1 (Action.select b) = none)
    ∧ ((step s (Action.select Branch.tick)).isSome = true ↔ t = Timer.ready)
    ∧ (t = Timer.ready →
        step s (Action.select Branch.tick)
          = some { cache := (updateConfig s.cache (ContextFromChan s.cache.stop)).1
                   pc := PollPC.atSelect Timer.pending
                   crashed := none }) := by
  obtain ⟨cache, pc, crashed⟩ := s
  simp only at hstop hpc hrun
  subst hpc hrun
  refine ⟨?_, ?_, ?_⟩
  · cases hd : closeChan cache.done with
    | error p =>
      refine ⟨{ cache := cache, pc := PollPC.returned, crashed := some p }, ?_, rfl, rfl, ?_⟩
      · simp [step, pollSelect, hstop, Chan.recvReady, hd]
      · intro b
        simp [step]
    | ok ch =>
      refine ⟨{ cache := { cache with done := ch }, pc := PollPC.returned, crashed := none },
        ?_, rfl, rfl, ?_⟩
      · simp [step, pollSelect, hstop, Chan.recvReady, hd]
      · intro b
        simp [step]
  · cases t <;> simp [step, pollSelect]
  · intro ht
    subst ht
    simp [step, pollSelect, updateConfig]

/-- C5 (amended), applied to the state reached by `Start`, the timer firing and
`Close`. -/
theorem poll_select_after_Close_witness :
    closedWhileReady.cache.stop = Chan.closed
    ∧ closedWhileReady.pc = PollPC.atSelect Timer.ready
    ∧ closedWhileReady.crashed = none
    ∧ (∃ s1, step closedWhileReady (Action.select Branch.stop) = some s1
        ∧ s1.pc = PollPC.returned
        ∧ s1.cache.contractConfig = closedWhileReady.cache.contractConfig
        ∧ ∀ b, step s1 (Action.select b) = none)
    ∧ ((step closedWhileReady (Action.select Branch.tick)).isSome = true
        ↔ Timer.ready = Timer.ready)
    ∧ (Timer.ready = Timer.ready →
        step closedWhileReady (Action.select Branch.tick)
          = some { cache := (updateConfig closedWhileReady.cache
                      (ContextFromChan closedWhileReady.cache.stop)).1
                   pc := PollPC.atSelect Timer.pending
                   crashed := none }) :=
  ⟨rfl, rfl, rfl, poll_select_after_Close closedWhileReady Timer.ready rfl rfl rfl⟩

/-! ## C6 to C10: the accessors and `Start` -/

/-- C6: for every cache state, every context and every `changedInBlock`
argument, `LatestConfigDetails`, `LatestConfig` and `LatestBlockHeight` return a
nil error; this holds in particular on the state a refresh leaves behind. -/
theorem accessors_err_nil (c : contractCache) (ctx : Context) (changedInBlock : Nat) :
    (LatestConfigDetails c ctx).2.2.2 = none
    ∧ (LatestConfig c ctx changedInBlock).2.2 = none
    ∧ (LatestBlockHeight c ctx).2.2 = none
    ∧ (LatestConfigDetails (updateConfig c ctx).1 ctx).2.2.2 = none
    ∧ (LatestConfig (updateConfig c ctx).1 ctx changedInBlock).2.2 = none
    ∧ (LatestBlockHeight (updateConfig c ctx).1 ctx).2.2 = none :=
  ⟨rfl, rfl, rfl, rfl, rfl, rfl⟩

/-- C7: `LatestConfigDetails`, `LatestConfig`, `LatestBlockHeight`, `Notify` and
`Close` leave the cached snapshot unchanged, for every cache state and every
argument (the accessors leave the whole cache unchanged); the snapshot that
`Start` leaves is the one its `updateConfig` call wrote. -/
theorem snapshot_frame (c : contractCache) (ctx : Context) (changedInBlock : Nat) :
    (LatestConfigDetails c ctx).1 = c
    ∧ (LatestConfig c ctx changedInBlock).1 = c
    ∧ (LatestBlockHeight c ctx).1 = c
    ∧ (Notify c).1 = c
    ∧ (Close c).1.contractConfig = c.contractConfig
    ∧ (Start c).cache.contractConfig
        = (updateConfig c (ContextFromChan c.stop)).1.contractConfig := by
  refine ⟨rfl, rfl, rfl, rfl, ?_, rfl⟩
  unfold Close
  cases closeChan c.stop <;> rfl

/-- C8: for every cache state, whatever the reader would answer to the initial
fetch, `Start` returns a nil error (and launches `poll`). The same holds of the
body of `Start` with any refresh in the place of `updateConfig`, also one that
returns an error: the error is logged as a warning and the result is still
`nil`. -/
theorem Start_err_nil (c : contractCache) :
    (Start c).err = none ∧ (Start c).spawned = [Goroutine.poll]
    ∧ Start c = StartWith updateConfig c
    ∧ (∀ refresh : contractCache → Context → contractCache × Option GoError,
        (StartWith refresh c).err = none ∧ (StartWith refresh c).spawned = [Goroutine.poll])
    ∧ ∀ (c1 : contractCache) (e : GoError),
        StartWith (fun _ _ => (c1, some e)) c
          = { cache := { c1 with
                lggr := c1.lggr.Warnf ("failed to populate initial config: " ++ e) }
              spawned := [Goroutine.poll]
              err := none } :=
  ⟨rfl, rfl, rfl, fun _ => ⟨rfl, rfl⟩, fun _ _ => rfl⟩

/-- C9: for every cache state the digest returned by `LatestConfigDetails` is the
`ConfigDigest` field of the config returned by `LatestConfig` on the same state,
and the block returned by `LatestConfigDetails` is the `configBlock` of the
cached snapshot, whose config is the one `LatestConfig` returns. -/
theorem accessors_agree (c : contractCache) (ctx ctx1 : Context) (changedInBlock : Nat) :
    (LatestConfigDetails c ctx).2.2.1 = (LatestConfig c ctx1 changedInBlock).2.1.ConfigDigest
    ∧ (LatestConfigDetails c ctx).2.1 = c.contractConfig.configBlock
    ∧ (LatestConfig c ctx1 changedInBlock).2.1 = c.contractConfig.config :=
  ⟨rfl, rfl, rfl⟩

/-- C10: for every cache state and every two block numbers `b1` and `b2`,
`LatestConfig(ctx, b1)` and `LatestConfig(ctx, b2)` return the same result: the
currently cached config with a nil error. -/
theorem LatestConfig_ignores_block (c : contractCache) (ctx : Context) (b1 b2 : Nat) :
    (LatestConfig c ctx b1).2 = (LatestConfig c ctx b2).2
    ∧ (LatestConfig c ctx b1).2 = (c.contractConfig.config, none) :=
  ⟨rfl, rfl⟩

end ocr2
